import Mathlib

/-!
Shallow embedding of `download_lfs.py` (the Recordio LFS materializer).

The script walks a directory tree, treats every file smaller than 1024
bytes as a candidate Git-LFS pointer, reads it in text mode, checks for
the literal signature prefix, builds a percent-encoded download URL and
streams the HTTP body over the file in 8 KiB chunks.

Modelling decisions (each mirrors a concrete line of the source):
* A file is `segs` (its path segments relative to the walked root, as
  produced by `os.path.relpath(filepath, root_dir).split(os.sep)`),
  its raw `bytes`, and two effect flags: `readable` (does
  opening the file for a text read succeed) and `statable` (does
  `os.path.getsize(filepath)` succeed).  `os.path.getsize` returns the
  byte length, so the size is `f.bytes.length`.
* Reading a file in text mode (open for read, then a full read) is
  strict UTF-8 decoding of the raw bytes followed by universal-newline
  translation, and fails (raises) when the bytes are not valid UTF-8 or
  the open itself fails.
* The network call `urllib.request.urlopen` either yields a response
  carrying a status and a body, raises before anything is written, or
  raises midway through the read/write loop after some whole number of
  8192-byte chunks has been written.
* `print` calls are collected into a list of emitted lines.
* `os.path.getsize` is called OUTSIDE the `try` block of
  `process_directory`, so its failure is modelled as an `Except.error`
  that escapes the per-file handler.
-/

namespace DownloadLfs

/-- UTF-8 encoding of one code point, as the Python utf-8 string
encoder performs per character. -/
def utf8EncodeChar (c : Char) : List Nat :=
  let n := c.toNat
  if n < 0x80 then [n]
  else if n < 0x800 then
    [0xC0 + n / 64, 0x80 + n % 64]
  else if n < 0x10000 then
    [0xE0 + n / 4096, 0x80 + (n / 64) % 64, 0x80 + n % 64]
  else
    [0xF0 + n / 262144, 0x80 + (n / 4096) % 64, 0x80 + (n / 64) % 64, 0x80 + n % 64]

/-- The UTF-8 bytes of a string (Python utf-8 string encoding). -/
def strBytes (s : String) : List Nat :=
  s.data.flatMap utf8EncodeChar

/-- Is `b` a UTF-8 continuation byte (`0x80..0xBF`)? -/
def isCont (b : Nat) : Bool :=
  0x80 ≤ b && b ≤ 0xBF

/-- Strict UTF-8 decoding of a byte sequence, as the CPython utf-8
codec performs it: rejects stray continuation bytes, overlong forms, surrogate
code points (lead `0xED` limits the second byte to `0x9F`) and code
points above `0x10FFFF` (lead at most `0xF4`, with `0xF4` limiting the
second byte to `0x8F`). -/
def utf8Decode : List Nat → Option (List Char)
  | [] => some []
  | b :: rest =>
    if b < 0x80 then
      (utf8Decode rest).map (fun cs => Char.ofNat b :: cs)
    else if b < 0xC2 then none
    else if b ≤ 0xDF then
      match rest with
      | b1 :: rest1 =>
        if isCont b1 then
          (utf8Decode rest1).map (fun cs => Char.ofNat ((b - 0xC0) * 64 + (b1 - 0x80)) :: cs)
        else none
      | [] => none
    else if b ≤ 0xEF then
      match rest with
      | b1 :: b2 :: rest2 =>
        let okB1 : Bool :=
          if b = 0xE0 then 0xA0 ≤ b1 && b1 ≤ 0xBF
          else if b = 0xED then 0x80 ≤ b1 && b1 ≤ 0x9F
          else isCont b1
        if okB1 && isCont b2 then
          (utf8Decode rest2).map (fun cs =>
            Char.ofNat ((b - 0xE0) * 4096 + (b1 - 0x80) * 64 + (b2 - 0x80)) :: cs)
        else none
      | _ => none
    else if b ≤ 0xF4 then
      match rest with
      | b1 :: b2 :: b3 :: rest3 =>
        let okB1 : Bool :=
          if b = 0xF0 then 0x90 ≤ b1 && b1 ≤ 0xBF
          else if b = 0xF4 then 0x80 ≤ b1 && b1 ≤ 0x8F
          else isCont b1
        if okB1 && isCont b2 && isCont b3 then
          (utf8Decode rest3).map (fun cs =>
            Char.ofNat ((b - 0xF0) * 262144 + (b1 - 0x80) * 4096 + (b2 - 0x80) * 64 + (b3 - 0x80)) :: cs)
        else none
      | _ => none
    else none

/-- Universal-newline translation performed by Python text mode reads:
`\r\n` and lone `\r` both become `\n`. -/
def translateNewlines : List Char → List Char
  | [] => []
  | '\r' :: '\n' :: rest => '\n' :: translateNewlines rest
  | '\r' :: rest => '\n' :: translateNewlines rest
  | c :: rest => c :: translateNewlines rest

/-- A regular file yielded by `os.walk`, together with the two
filesystem effects the script performs on it. -/
structure LfsFile where
  /-- Path segments relative to the walked root
  (`os.path.relpath(filepath, root_dir).split(os.sep)`). -/
  segs : List String
  /-- Raw content bytes; `os.path.getsize` returns their count. -/
  bytes : List Nat
  /-- Whether opening the file for a text read succeeds. -/
  readable : Bool
  /-- Whether `os.path.getsize(filepath)` succeeds (false for e.g. a
  broken symbolic link yielded by the walk). -/
  statable : Bool
  deriving Repr, DecidableEq

/-- `filepath = os.path.join(dirpath, filename)`: the absolute path of
the file, root joined with its relative segments. -/
def filepath (root : String) (f : LfsFile) : String :=
  root ++ "/" ++ String.intercalate "/" f.segs

/-- Opening the file in text mode and reading it whole: `some` of the
decoded, newline-translated characters when the open and the decode
both succeed, `none` when either raises. -/
def readText (f : LfsFile) : Option (List Char) :=
  if f.readable then (utf8Decode f.bytes).map translateNewlines else none

/-- The literal LFS pointer signature that the startswith check in
`process_directory` compares against the content. -/
def lfsSignature : List Char :=
  "version https://git-lfs.github.com/spec/v1".data

/-- The classification decision of `process_directory` for one file:
size below 1024, text read succeeds, and the content starts with the
signature. -/
def detectPointer (f : LfsFile) : Bool :=
  if f.bytes.length < 1024 then
    match readText f with
    | some content => lfsSignature.isPrefixOf content
    | none => false
  else false

/-- Bytes that `urllib.parse.quote` leaves unescaped with its default
safe set (the slash): ASCII letters, digits, `_ . - ~`, and `/`. -/
def quoteSafe (b : Nat) : Bool :=
  (0x41 ≤ b && b ≤ 0x5A) || (0x61 ≤ b && b ≤ 0x7A) || (0x30 ≤ b && b ≤ 0x39) ||
    b == 0x5F || b == 0x2E || b == 0x2D || b == 0x7E || b == 0x2F

/-- Uppercase hexadecimal digit, as `urllib.parse.quote` emits. -/
def hexDigit (n : Nat) : Char :=
  if n < 10 then Char.ofNat (48 + n) else Char.ofNat (55 + n)

/-- Percent-escaping of one byte of the UTF-8 encoding. -/
def quoteByte (b : Nat) : List Char :=
  if quoteSafe b then [Char.ofNat b] else ['%', hexDigit (b / 16), hexDigit (b % 16)]

/-- `urllib.parse.quote(part)`: UTF-8 encode, then percent-escape every
unsafe byte. -/
def quote (s : String) : String :=
  String.mk ((strBytes s).flatMap quoteByte)

/-- `"/".join([urllib.parse.quote(part) for part in rel_path.split(os.sep)])`. -/
def encodedPath (segs : List String) : String :=
  String.intercalate "/" (segs.map quote)

/-- `download_url = f"{base_url}/{encoded_path}"`. -/
def buildUrl (base : String) (segs : List String) : String :=
  base ++ "/" ++ encodedPath segs

/-- Outcome of one `urllib.request.urlopen(url, ...)` call together
with the subsequent read loop, as observed by `download_lfs_file`:
either a response with a status and a body, an exception before the
destination file is opened for writing (connection refused, DNS
failure, `HTTPError` raised by urllib for non-2xx statuses, ...), or an
exception in the read/write loop after `k` whole 8192-byte chunks of
the body were already written to the (truncated) destination. -/
inductive NetResult where
  | response (status : Nat) (body : List Nat)
  | raiseBefore (e : String)
  | raiseDuring (body : List Nat) (k : Nat) (e : String)
  deriving Repr, DecidableEq

/-- A deterministic network: what `urlopen` does for each URL. -/
def Network := String → NetResult

/-- The `while True: chunk = response.read(8192); if not chunk: break;
f.write(chunk)` loop, structurally recursive on a fuel that bounds the
number of iterations (each non-final iteration consumes at least one
byte, so one unit of fuel per byte of the remaining body suffices):
each round reads at most 8192 bytes and appends them; the empty chunk
ends the loop. -/
def readLoop : Nat → List Nat → List Nat
  | _, [] => []
  | 0, _ => []
  | fuel + 1, body => body.take 8192 ++ readLoop fuel (body.drop 8192)

/-- The bytes the chunked write loop deposits in the destination. -/
def writeChunks (body : List Nat) : List Nat :=
  readLoop body.length body

/-- `download_lfs_file(filepath, url)`: prints the banner, performs the
GET, and on a 200 status opens the destination in write-binary mode
(truncating
it) and streams the body in 8 KiB chunks; on any other status prints a
failure line; on an exception prints a failure line and leaves whatever
the interrupted write produced.  Returns the new file state and the
printed lines; the Python function itself returns `None` — nothing in
the result encodes success or failure beyond the printed text. -/
def download_lfs_file (net : Network) (path : String) (f : LfsFile) (url : String) :
    LfsFile × List String :=
  let banner := "Downloading " ++ path ++ " from " ++ url ++ "..."
  match net url with
  | .response status body =>
    if status = 200 then
      ({ f with bytes := writeChunks body, readable := true, statable := true },
        [banner, "Successfully downloaded " ++ path])
    else
      (f, [banner, "Failed to download " ++ path ++ ": " ++ toString status])
  | .raiseBefore e =>
    (f, [banner, "Failed to download " ++ path ++ ": " ++ e])
  | .raiseDuring body k e =>
    ({ f with bytes := body.take (8192 * k), readable := true, statable := true },
      [banner, "Failed to download " ++ path ++ ": " ++ e])

/-- The body of the inner loop of `process_directory` for one walked file.
`os.path.getsize(filepath)` runs OUTSIDE the `try:` block, so its
failure escapes as an uncaught exception (`Except.error`); the `try:`
covers the text read, the signature check and the download, and its
`except ... : pass` turns any read failure into a silent skip. -/
def processFile (net : Network) (root base : String) (f : LfsFile) :
    Except String (LfsFile × List String) :=
  if f.statable then
    if f.bytes.length < 1024 then
      match readText f with
      | some content =>
        if lfsSignature.isPrefixOf content then
          .ok (download_lfs_file net (filepath root f) f (buildUrl base f.segs))
        else .ok (f, [])
      | none => .ok (f, [])
    else .ok (f, [])
  else .error ("OSError: os.path.getsize failed on " ++ filepath root f)

/-- `process_directory(root_dir, base_url)` over the files produced by
`os.walk`, in walk order: processes each file in turn; an uncaught
exception aborts the remainder of the run. -/
def process_directory (net : Network) (root base : String) :
    List LfsFile → Except String (List LfsFile × List String)
  | [] => .ok ([], [])
  | f :: fs =>
    match processFile net root base f with
    | .error e => .error e
    | .ok (f1, out) =>
      match process_directory net root base fs with
      | .error e => .error e
      | .ok (fs1, out1) => .ok (f1 :: fs1, out ++ out1)

/-! ### Helper lemmas -/

/-- With enough fuel the read loop reproduces the whole body. -/
theorem readLoop_eq (fuel : Nat) : ∀ body : List Nat,
    body.length ≤ fuel → readLoop fuel body = body := by
  induction fuel with
  | zero =>
    intro body h
    cases body with
    | nil => rfl
    | cons b rest => simp at h
  | succ n ih =>
    intro body h
    cases body with
    | nil => rfl
    | cons b rest =>
      rw [show readLoop (n + 1) (b :: rest) =
            (b :: rest).take 8192 ++ readLoop n ((b :: rest).drop 8192) from rfl,
        ih ((b :: rest).drop 8192) (by simp at h ⊢; omega), List.take_append_drop]

/-- The chunked write loop deposits exactly the body: reading in
8192-byte slices until the empty chunk reproduces the input. -/
theorem writeChunks_eq (body : List Nat) : writeChunks body = body :=
  readLoop_eq body.length body (Nat.le_refl _)

/-- A stat-able file that the detector rejects is passed over silently:
no output, no error, no change. -/
theorem processFile_skip (net : Network) (root base : String) (f : LfsFile)
    (hstat : f.statable = true) (hdet : detectPointer f = false) :
    processFile net root base f = .ok (f, []) := by
  unfold processFile
  unfold detectPointer at hdet
  rw [if_pos hstat]
  split at hdet
  next hlen =>
    rw [if_pos hlen]
    split at hdet
    next c heq => simp [hdet]
    next heq => rfl
  next hlen => rw [if_neg hlen]

/-- A stat-able file that the detector accepts is handed to the
downloader with the derived URL. -/
theorem processFile_hit (net : Network) (root base : String) (f : LfsFile)
    (hstat : f.statable = true) (hdet : detectPointer f = true) :
    processFile net root base f =
      .ok (download_lfs_file net (filepath root f) f (buildUrl base f.segs)) := by
  unfold processFile
  unfold detectPointer at hdet
  rw [if_pos hstat]
  split at hdet
  next hlen =>
    rw [if_pos hlen]
    split at hdet
    next c heq => simp [hdet]
    next heq => simp at hdet
  next hlen => simp at hdet

/-- Processing a stat-able file never raises. -/
theorem processFile_ok_of_statable (net : Network) (root base : String) (f : LfsFile)
    (hstat : f.statable = true) :
    ∃ out, processFile net root base f = .ok out := by
  cases hdet : detectPointer f with
  | false => exact ⟨(f, []), processFile_skip net root base f hstat hdet⟩
  | true => exact ⟨_, processFile_hit net root base f hstat hdet⟩

/-- Processing a file that cannot be stat-ed raises. -/
theorem processFile_error_of_not_statable (net : Network) (root base : String)
    (f : LfsFile) (hstat : f.statable = false) :
    processFile net root base f =
      .error ("OSError: os.path.getsize failed on " ++ filepath root f) := by
  unfold processFile
  rw [hstat]
  rfl

/-- A successful run processes the files positionally: the `i`-th
output file is the result of processing the `i`-th input file, and its
output lines all appear among the output of the run. -/
theorem process_directory_spec (net : Network) (root base : String) :
    ∀ (files files1 : List LfsFile) (msgs : List String),
      process_directory net root base files = .ok (files1, msgs) →
      ∀ (i : Nat) (f : LfsFile), files[i]? = some f →
        ∃ g out, files1[i]? = some g ∧
          processFile net root base f = .ok (g, out) ∧ ∀ m ∈ out, m ∈ msgs := by
  intro files
  induction files with
  | nil => intro files1 msgs h i f hf; simp at hf
  | cons a as ih =>
    intro files1 msgs h i f hf
    rw [process_directory] at h
    cases hpa : processFile net root base a with
    | error e => rw [hpa] at h; simp at h
    | ok p =>
      rw [hpa] at h
      obtain ⟨a1, out⟩ := p
      cases hrest : process_directory net root base as with
      | error e => rw [hrest] at h; simp at h
      | ok q =>
        rw [hrest] at h
        obtain ⟨as1, out1⟩ := q
        simp only [Except.ok.injEq, Prod.mk.injEq] at h
        obtain ⟨h1, h2⟩ := h
        subst h1
        subst h2
        cases i with
        | zero =>
          simp only [List.getElem?_cons_zero, Option.some.injEq] at hf
          subst hf
          exact ⟨a1, out, by simp, hpa, fun m hm => by simp [hm]⟩
        | succ n =>
          simp only [List.getElem?_cons_succ] at hf
          obtain ⟨g, out2, hg, hpf, hsub⟩ := ih as1 out1 hrest n f hf
          exact ⟨g, out2, by simpa using hg, hpf,
            fun m hm => by simp [hsub m hm]⟩

/-- The file produced by the downloader keeps its path segments. -/
theorem download_segs (net : Network) (path : String) (f : LfsFile) (url : String) :
    (download_lfs_file net path f url).1.segs = f.segs := by
  unfold download_lfs_file
  cases net url with
  | response status body =>
    by_cases h : status = 200 <;> simp [h]
  | raiseBefore e => rfl
  | raiseDuring body k e => rfl

/-- The file produced by the downloader is stat-able. -/
theorem download_statable (net : Network) (path : String) (f : LfsFile) (url : String)
    (hstat : f.statable = true) :
    (download_lfs_file net path f url).1.statable = true := by
  unfold download_lfs_file
  cases net url with
  | response status body =>
    by_cases h : status = 200 <;> simp [h, hstat]
  | raiseBefore e => exact hstat
  | raiseDuring body k e => rfl

/-- Against a fixed network, downloading the same URL onto the file the
previous download left behind reproduces that file. -/
theorem download_fst_idem (net : Network) (path path1 : String) (f : LfsFile)
    (url : String) :
    (download_lfs_file net path1 (download_lfs_file net path f url).1 url).1 =
      (download_lfs_file net path f url).1 := by
  obtain ⟨segs, bytes, readable, statable⟩ := f
  unfold download_lfs_file
  cases hn : net url with
  | response status body =>
    by_cases h : status = 200 <;> simp [h]
  | raiseBefore e => rfl
  | raiseDuring body k e => simp

/-- Processing leaves a successfully processed file stat-able. -/
theorem processFile_ok_statable (net : Network) (root base : String)
    (f f1 : LfsFile) (out : List String)
    (h : processFile net root base f = .ok (f1, out)) :
    f1.statable = true := by
  have hstat : f.statable = true := by
    by_contra hs
    rw [processFile_error_of_not_statable net root base f (by simpa using hs)] at h
    simp at h
  cases hdet : detectPointer f with
  | false =>
    rw [processFile_skip net root base f hstat hdet] at h
    simp only [Except.ok.injEq, Prod.mk.injEq] at h
    rw [← h.1]
    exact hstat
  | true =>
    rw [processFile_hit net root base f hstat hdet] at h
    simp only [Except.ok.injEq] at h
    have h1 : (download_lfs_file net (filepath root f) f (buildUrl base f.segs)).1 = f1 := by
      rw [h]
    rw [← h1]
    exact download_statable net _ f _ hstat

/-- Processing the file a successful processing step produced (against
the same network) leaves it unchanged: either it no longer looks like a
pointer and is skipped, or the repeated download deposits the same
bytes again. -/
theorem processFile_idem (net : Network) (root base : String)
    (f f1 : LfsFile) (out : List String)
    (h : processFile net root base f = .ok (f1, out)) :
    ∃ out1, processFile net root base f1 = .ok (f1, out1) := by
  have hstat : f.statable = true := by
    by_contra hs
    rw [processFile_error_of_not_statable net root base f (by simpa using hs)] at h
    simp at h
  have hstat1 : f1.statable = true := processFile_ok_statable net root base f f1 out h
  cases hdet : detectPointer f with
  | false =>
    rw [processFile_skip net root base f hstat hdet] at h
    simp only [Except.ok.injEq, Prod.mk.injEq] at h
    obtain ⟨h1, -⟩ := h
    subst h1
    exact ⟨[], processFile_skip net root base f hstat hdet⟩
  | true =>
    rw [processFile_hit net root base f hstat hdet] at h
    simp only [Except.ok.injEq] at h
    have hf1 : (download_lfs_file net (filepath root f) f (buildUrl base f.segs)).1 = f1 := by
      rw [h]
    have hsegs : f1.segs = f.segs := by
      rw [← hf1]
      exact download_segs net (filepath root f) f (buildUrl base f.segs)
    cases hdet1 : detectPointer f1 with
    | false => exact ⟨[], processFile_skip net root base f1 hstat1 hdet1⟩
    | true =>
      refine ⟨(download_lfs_file net (filepath root f1) f1 (buildUrl base f1.segs)).2, ?_⟩
      rw [processFile_hit net root base f1 hstat1 hdet1]
      have hfix : (download_lfs_file net (filepath root f1) f1 (buildUrl base f1.segs)).1 = f1 := by
        rw [hsegs, ← hf1]
        exact download_fst_idem net (filepath root f) _ f (buildUrl base f.segs)
      revert hfix
      generalize download_lfs_file net (filepath root f1) f1 (buildUrl base f1.segs) = d
      intro hfix
      rw [← hfix]

/-- Running the processing a second time, over the files a successful
run produced and against the same network, reproduces those files
exactly. -/
theorem process_directory_idem (net : Network) (root base : String) :
    ∀ (files files1 : List LfsFile) (msgs : List String),
      process_directory net root base files = .ok (files1, msgs) →
      ∃ msgs1, process_directory net root base files1 = .ok (files1, msgs1) := by
  intro files
  induction files with
  | nil =>
    intro files1 msgs h
    simp only [process_directory, Except.ok.injEq, Prod.mk.injEq] at h
    obtain ⟨h1, -⟩ := h
    subst h1
    exact ⟨[], rfl⟩
  | cons a as ih =>
    intro files1 msgs h
    rw [process_directory] at h
    cases hpa : processFile net root base a with
    | error e => rw [hpa] at h; simp at h
    | ok p =>
      rw [hpa] at h
      obtain ⟨a1, out⟩ := p
      cases hrest : process_directory net root base as with
      | error e => rw [hrest] at h; simp at h
      | ok q =>
        rw [hrest] at h
        obtain ⟨as1, out1⟩ := q
        simp only [Except.ok.injEq, Prod.mk.injEq] at h
        obtain ⟨h1, -⟩ := h
        subst h1
        obtain ⟨outA, hA⟩ := processFile_idem net root base a a1 out hpa
        obtain ⟨msgsAs, hAs⟩ := ih as1 out1 hrest
        refine ⟨outA ++ msgsAs, ?_⟩
        rw [process_directory, hA, hAs]

/-! ### Claim theorems -/

/-- C1: for every file whose size is below 1024 bytes, the detector
classifies it as an LFS pointer if and only if reading it as text
succeeds and the resulting content starts with the exact signature
string; every other small file (empty files and files whose text
decoding fails included) is classified a non-pointer, and processing
such a file swallows the error silently: no output, no change, no
raised exception. -/
theorem c1_small_file_detection (f : LfsFile)
    (hstat : f.statable = true) (hsize : f.bytes.length < 1024) :
    (detectPointer f = true ↔
      ∃ content, readText f = some content ∧ lfsSignature.isPrefixOf content = true) ∧
    ∀ (net : Network) (root base : String), detectPointer f = false →
      processFile net root base f = .ok (f, []) := by
  constructor
  · unfold detectPointer
    rw [if_pos hsize]
    cases hread : readText f with
    | none => simp
    | some content => simp
  · intro net root base hdet
    exact processFile_skip net root base f hstat hdet

/-- A concrete small pointer stub: the signature line followed by oid
and size lines, stat-able and readable. -/
def c1File : LfsFile :=
  ⟨["m.bin"],
    strBytes "version https://git-lfs.github.com/spec/v1\noid sha256:abc\nsize 42\n",
    true, true⟩

theorem c1_witness :
    c1File.statable = true ∧ c1File.bytes.length < 1024 ∧
    ((detectPointer c1File = true ↔
      ∃ content, readText c1File = some content ∧
        lfsSignature.isPrefixOf content = true) ∧
    ∀ (net : Network) (root base : String), detectPointer c1File = false →
      processFile net root base c1File = .ok (c1File, [])) :=
  ⟨rfl, by decide, c1_small_file_detection c1File rfl (by decide)⟩

/-- C2: the built download URL is the base URL, then `/`, then the
relative path with every segment percent-encoded independently by
`quote` and rejoined with `/`; concretely, root `/r`, file
`/r/a b/c.bin` and base `https://x/y` yield
`https://x/y/a%20b/c.bin`. -/
theorem c2_url_construction :
    (∀ (base : String) (segs : List String),
      buildUrl base segs = base ++ "/" ++ String.intercalate "/" (segs.map quote)) ∧
    buildUrl "https://x/y" ["a b", "c.bin"] = "https://x/y/a%20b/c.bin" :=
  ⟨fun _ _ => rfl, by decide⟩

/-- C4: a file of size at least 1024 bytes is classified "not a
pointer" from the size alone and processing it never raises and never
touches it — even when the file cannot be opened (its `readable` flag
is never consulted). -/
theorem c4_large_file_guard (f : LfsFile)
    (hstat : f.statable = true) (hsize : 1024 ≤ f.bytes.length) :
    detectPointer f = false ∧
    ∀ (net : Network) (root base : String),
      processFile net root base f = .ok (f, []) := by
  have hdet : detectPointer f = false := by
    unfold detectPointer
    rw [if_neg (by omega)]
  exact ⟨hdet, fun net root base => processFile_skip net root base f hstat hdet⟩

/-- A large file that cannot even be opened: 1024 zero bytes,
`readable := false`. -/
def c4File : LfsFile :=
  ⟨["big.bin"], List.replicate 1024 0, false, true⟩

theorem c4_witness :
    c4File.statable = true ∧ 1024 ≤ c4File.bytes.length ∧ c4File.readable = false ∧
    (detectPointer c4File = false ∧
      ∀ (net : Network) (root base : String),
        processFile net root base c4File = .ok (c4File, [])) :=
  ⟨rfl, by rw [show c4File.bytes = List.replicate 1024 0 from rfl, List.length_replicate],
    rfl, c4_large_file_guard c4File rfl
      (by rw [show c4File.bytes = List.replicate 1024 0 from rfl, List.length_replicate])⟩

/-- C3: in any run whose files contain a pointer stub (small,
text-readable, signature-prefixed), if the GET on the derived URL of
the stub returns status 200 with body `HELLO`, then after the run that file
holds exactly the five bytes `HELLO`: the body passes through the
8 KiB chunked write loop, which deposits it verbatim and fully
replaces the prior content, and the success line is printed. -/
theorem c3_end_to_end_hello (net : Network) (root base : String)
    (files files1 : List LfsFile) (msgs : List String) (i : Nat) (f : LfsFile)
    (content : List Char)
    (hi : files[i]? = some f)
    (hsize : f.bytes.length < 1024)
    (hread : readText f = some content)
    (hsig : lfsSignature.isPrefixOf content = true)
    (hnet : net (buildUrl base f.segs) = .response 200 [72, 69, 76, 76, 79])
    (hrun : process_directory net root base files = .ok (files1, msgs)) :
    ∃ g, files1[i]? = some g ∧
      g.bytes = [72, 69, 76, 76, 79] ∧
      ("Successfully downloaded " ++ filepath root f) ∈ msgs := by
  obtain ⟨g, out, hg, hpf, hout⟩ :=
    process_directory_spec net root base files files1 msgs hrun i f hi
  have hstat : f.statable = true := by
    by_contra hs
    rw [processFile_error_of_not_statable net root base f (by simpa using hs)] at hpf
    simp at hpf
  have hdet : detectPointer f = true := by
    unfold detectPointer
    rw [if_pos hsize, hread]
    exact hsig
  rw [processFile_hit net root base f hstat hdet] at hpf
  have hdl : download_lfs_file net (filepath root f) f (buildUrl base f.segs) =
      ({ f with bytes := [72, 69, 76, 76, 79], readable := true, statable := true },
        ["Downloading " ++ filepath root f ++ " from " ++ buildUrl base f.segs ++ "...",
         "Successfully downloaded " ++ filepath root f]) := by
    unfold download_lfs_file
    simp only [hnet]
    rw [writeChunks_eq]
    rfl
  rw [hdl] at hpf
  simp only [Except.ok.injEq, Prod.mk.injEq] at hpf
  obtain ⟨hpf1, hpf2⟩ := hpf
  refine ⟨g, hg, ?_, ?_⟩
  · rw [← hpf1]
  · exact hout _ (by rw [← hpf2]; simp)

/-- The pointer stub used to witness C3. -/
def c3File : LfsFile :=
  ⟨["m.bin"], strBytes "version https://git-lfs.github.com/spec/v1\nsize 42\n", true, true⟩

/-- What reading `c3File` as text yields (pure ASCII, no `\r`). -/
def c3Content : List Char :=
  "version https://git-lfs.github.com/spec/v1\nsize 42\n".data

theorem c3_witness :
    [c3File][0]? = some c3File ∧
    c3File.bytes.length < 1024 ∧
    readText c3File = some c3Content ∧
    lfsSignature.isPrefixOf c3Content = true ∧
    (∃ g, [(⟨["m.bin"], [72, 69, 76, 76, 79], true, true⟩ : LfsFile)][0]? = some g ∧
      g.bytes = [72, 69, 76, 76, 79] ∧
      ("Successfully downloaded " ++ filepath "/r" c3File) ∈
        ["Downloading /r/m.bin from https://x/y/m.bin...",
         "Successfully downloaded /r/m.bin"]) :=
  ⟨rfl, by decide, by decide, by decide,
    c3_end_to_end_hello (fun _ => .response 200 [72, 69, 76, 76, 79]) "/r" "https://x/y"
      [c3File] [⟨["m.bin"], [72, 69, 76, 76, 79], true, true⟩]
      ["Downloading /r/m.bin from https://x/y/m.bin...",
       "Successfully downloaded /r/m.bin"]
      0 c3File c3Content rfl (by decide) (by decide) (by decide) rfl (by rfl)⟩

/-- C5: in any run, a pointer file whose GET yields a 500-status
response is left byte-for-byte unchanged — the destination is never
opened for writing — and the failure line is printed. -/
theorem c5_status500_unchanged (net : Network) (root base : String)
    (files files1 : List LfsFile) (msgs : List String) (i : Nat) (f : LfsFile)
    (body : List Nat)
    (hi : files[i]? = some f)
    (hdet : detectPointer f = true)
    (hnet : net (buildUrl base f.segs) = .response 500 body)
    (hrun : process_directory net root base files = .ok (files1, msgs)) :
    files1[i]? = some f ∧
      ("Failed to download " ++ filepath root f ++ ": " ++ toString (500 : Nat)) ∈ msgs := by
  obtain ⟨g, out, hg, hpf, hout⟩ :=
    process_directory_spec net root base files files1 msgs hrun i f hi
  have hstat : f.statable = true := by
    by_contra hs
    rw [processFile_error_of_not_statable net root base f (by simpa using hs)] at hpf
    simp at hpf
  rw [processFile_hit net root base f hstat hdet] at hpf
  have hdl : download_lfs_file net (filepath root f) f (buildUrl base f.segs) =
      (f, ["Downloading " ++ filepath root f ++ " from " ++ buildUrl base f.segs ++ "...",
           "Failed to download " ++ filepath root f ++ ": " ++ toString (500 : Nat)]) := by
    unfold download_lfs_file
    simp only [hnet]
    rw [if_neg (show ¬ (500 : Nat) = 200 by decide)]
  rw [hdl] at hpf
  simp only [Except.ok.injEq, Prod.mk.injEq] at hpf
  obtain ⟨hpf1, hpf2⟩ := hpf
  constructor
  · rw [hg, ← hpf1]
  · exact hout _ (by rw [← hpf2]; simp)

/-- The pointer stub used to witness C5. -/
def c5File : LfsFile :=
  ⟨["m.bin"], strBytes "version https://git-lfs.github.com/spec/v1\nsize 42\n", true, true⟩

theorem c5_witness :
    [c5File][0]? = some c5File ∧
    detectPointer c5File = true ∧
    ([c5File][0]? = some c5File ∧
      ("Failed to download " ++ filepath "/r" c5File ++ ": " ++ toString (500 : Nat)) ∈
        ["Downloading /r/m.bin from https://x/y/m.bin...",
         "Failed to download /r/m.bin: 500"]) :=
  ⟨rfl, by decide,
    c5_status500_unchanged (fun _ => .response 500 []) "/r" "https://x/y"
      [c5File] [c5File]
      ["Downloading /r/m.bin from https://x/y/m.bin...",
       "Failed to download /r/m.bin: 500"]
      0 c5File [] rfl (by decide) (by rfl) (by rfl)⟩

/-- C8: every failing download invocation — a response carrying a
non-200 status, an exception raised before the destination is opened,
or an exception interrupting the write loop — prints the failure line,
and leaves the destination exactly as the partial write left it: the
prior bytes for the first two modes (nothing was written), and the
first `k` whole 8 KiB chunks for an interrupted loop, with no rollback
(an interruption at `k = 0` leaves a zero-length file).  The Python
function returns `None` in every mode: the printed lines are the only
outcome signal. -/
theorem c8_failure_modes (net : Network) (path : String) (f : LfsFile) (url : String) :
    (∀ (status : Nat) (body : List Nat),
      net url = .response status body → status ≠ 200 →
      download_lfs_file net path f url =
        (f, ["Downloading " ++ path ++ " from " ++ url ++ "...",
             "Failed to download " ++ path ++ ": " ++ toString status])) ∧
    (∀ e : String, net url = .raiseBefore e →
      download_lfs_file net path f url =
        (f, ["Downloading " ++ path ++ " from " ++ url ++ "...",
             "Failed to download " ++ path ++ ": " ++ e])) ∧
    (∀ (body : List Nat) (k : Nat) (e : String), net url = .raiseDuring body k e →
      download_lfs_file net path f url =
        ({ f with bytes := body.take (8192 * k), readable := true, statable := true },
          ["Downloading " ++ path ++ " from " ++ url ++ "...",
           "Failed to download " ++ path ++ ": " ++ e])) := by
  refine ⟨?_, ?_, ?_⟩
  · intro status body hnet h200
    unfold download_lfs_file
    simp only [hnet]
    rw [if_neg h200]
  · intro e hnet
    unfold download_lfs_file
    simp only [hnet]
  · intro body k e hnet
    unfold download_lfs_file
    simp only [hnet]

/-- The network used to witness C8: three URLs exhibiting the three
failure modes. -/
def c8Net : Network := fun u =>
  if u = "u1" then .response 500 [7, 7]
  else if u = "u2" then .raiseBefore "connection refused"
  else .raiseDuring [1, 2, 3] 0 "disk full"

theorem c8_witness :
    (c8Net "u1" = .response 500 [7, 7] ∧ (500 : Nat) ≠ 200 ∧
      download_lfs_file c8Net "/r/a" (⟨["a"], [9, 9], true, true⟩ : LfsFile) "u1" =
        (⟨["a"], [9, 9], true, true⟩,
          ["Downloading /r/a from u1...", "Failed to download /r/a: 500"])) ∧
    (c8Net "u2" = .raiseBefore "connection refused" ∧
      download_lfs_file c8Net "/r/a" (⟨["a"], [9, 9], true, true⟩ : LfsFile) "u2" =
        (⟨["a"], [9, 9], true, true⟩,
          ["Downloading /r/a from u2...",
           "Failed to download /r/a: connection refused"])) ∧
    (c8Net "u3" = .raiseDuring [1, 2, 3] 0 "disk full" ∧
      download_lfs_file c8Net "/r/a" (⟨["a"], [9, 9], true, true⟩ : LfsFile) "u3" =
        (⟨["a"], [], true, true⟩,
          ["Downloading /r/a from u3...", "Failed to download /r/a: disk full"])) :=
  ⟨⟨rfl, by decide,
      (c8_failure_modes c8Net "/r/a" ⟨["a"], [9, 9], true, true⟩ "u1").1 500 [7, 7]
        rfl (by decide)⟩,
    ⟨rfl,
      (c8_failure_modes c8Net "/r/a" ⟨["a"], [9, 9], true, true⟩ "u2").2.1
        "connection refused" rfl⟩,
    ⟨rfl,
      (c8_failure_modes c8Net "/r/a" ⟨["a"], [9, 9], true, true⟩ "u3").2.2
        [1, 2, 3] 0 "disk full" rfl⟩⟩

/-- C9: when the response arrives without an exception but carries a
non-200 status, the destination file is never opened for writing — it
is returned byte-for-byte unchanged — and the printed lines are the
banner and `Failed to download` followed by the path and the numeric
status. -/
theorem c9_non200_untouched (net : Network) (path : String) (f : LfsFile)
    (url : String) (status : Nat) (body : List Nat)
    (hnet : net url = .response status body) (h200 : status ≠ 200) :
    download_lfs_file net path f url =
      (f, ["Downloading " ++ path ++ " from " ++ url ++ "...",
           "Failed to download " ++ path ++ ": " ++ toString status]) := by
  unfold download_lfs_file
  simp only [hnet]
  rw [if_neg h200]

theorem c9_witness :
    ((fun _ => NetResult.response 204 [1, 2]) : Network) "u" = .response 204 [1, 2] ∧
    (204 : Nat) ≠ 200 ∧
    download_lfs_file (fun _ => .response 204 [1, 2]) "/r/a"
        (⟨["a"], [9, 9], false, true⟩ : LfsFile) "u" =
      (⟨["a"], [9, 9], false, true⟩,
        ["Downloading /r/a from u...", "Failed to download /r/a: 204"]) :=
  ⟨rfl, by decide,
    c9_non200_untouched (fun _ => .response 204 [1, 2]) "/r/a"
      ⟨["a"], [9, 9], false, true⟩ "u" 204 [1, 2] rfl (by decide)⟩

/-- C10: a 200 response with an empty body truncates the destination to
zero bytes — the open in write-binary mode truncates before the first chunk
is read, and the loop then writes nothing — and the success line is
printed, so the original pointer content is lost with no payload
received. -/
theorem c10_empty_body_truncates (net : Network) (path : String) (f : LfsFile)
    (url : String) (hnet : net url = .response 200 []) :
    download_lfs_file net path f url =
      ({ f with bytes := [], readable := true, statable := true },
        ["Downloading " ++ path ++ " from " ++ url ++ "...",
         "Successfully downloaded " ++ path]) := by
  unfold download_lfs_file
  simp only [hnet]
  rw [writeChunks_eq]
  rfl

theorem c10_witness :
    ((fun _ => NetResult.response 200 []) : Network) "u" = .response 200 [] ∧
    download_lfs_file (fun _ => .response 200 []) "/r/m.bin"
        (⟨["m.bin"], [118, 49, 10], true, true⟩ : LfsFile) "u" =
      (⟨["m.bin"], [], true, true⟩,
        ["Downloading /r/m.bin from u...", "Successfully downloaded /r/m.bin"]) :=
  ⟨rfl,
    c10_empty_body_truncates (fun _ => .response 200 []) "/r/m.bin"
      ⟨["m.bin"], [118, 49, 10], true, true⟩ "u" rfl⟩

/-- C6 counterexample: a run whose walk yields one file on which
`os.path.getsize` raises (e.g. a broken symbolic link) aborts with an
uncaught exception instead of printing a diagnostic and continuing:
the size query sits outside the `try` block, so the claim that every
error is caught and the process always returns success is false. -/
theorem c6_counterexample :
    process_directory (fun _ => .response 200 []) "/r" "https://x/y"
      [⟨["gone.bin"], [], true, false⟩] =
      .error "OSError: os.path.getsize failed on /r/gone.bin" := rfl

/-- C6 amended: every error raised while reading a candidate file as
text or while downloading is caught and converted to printed output or
silently swallowed — a run over files whose size query succeeds always
completes without an uncaught exception — but a failure of
`os.path.getsize` itself, which is called outside the `try` block,
escapes and halts the run. -/
theorem c6_amended (net : Network) (root base : String) :
    (∀ files : List LfsFile, (∀ f ∈ files, f.statable = true) →
      ∃ out, process_directory net root base files = .ok out) ∧
    (∀ f : LfsFile, f.statable = false → ∀ fs : List LfsFile,
      process_directory net root base (f :: fs) =
        .error ("OSError: os.path.getsize failed on " ++ filepath root f)) := by
  constructor
  · intro files hall
    induction files with
    | nil => exact ⟨([], []), rfl⟩
    | cons a as ih =>
      obtain ⟨⟨a1, out⟩, ha⟩ :=
        processFile_ok_of_statable net root base a (hall a (by simp))
      obtain ⟨⟨as1, out1⟩, has⟩ := ih (fun f hf => hall f (by simp [hf]))
      exact ⟨(a1 :: as1, out ++ out1), by rw [process_directory, ha, has]⟩
  · intro f hstat fs
    rw [process_directory, processFile_error_of_not_statable net root base f hstat]

theorem c6_witness :
    (∀ f ∈ [(⟨["ok"], [], true, true⟩ : LfsFile)], f.statable = true) ∧
    (∃ out, process_directory (fun _ => .response 200 []) "/r" "https://x/y"
      [⟨["ok"], [], true, true⟩] = .ok out) ∧
    ((⟨["bad"], [], true, false⟩ : LfsFile).statable = false ∧
      process_directory (fun _ => .response 200 []) "/r" "https://x/y"
        [⟨["bad"], [], true, false⟩] =
        .error ("OSError: os.path.getsize failed on "
          ++ filepath "/r" ⟨["bad"], [], true, false⟩)) :=
  ⟨by decide,
    (c6_amended (fun _ => .response 200 []) "/r" "https://x/y").1
      [⟨["ok"], [], true, true⟩] (by decide),
    rfl,
    (c6_amended (fun _ => .response 200 []) "/r" "https://x/y").2
      ⟨["bad"], [], true, false⟩ rfl []⟩

/-- The pointer stub used for C7. -/
def c7File : LfsFile :=
  ⟨["m.bin"], strBytes "version https://git-lfs.github.com/spec/v1\nsize 42\n", true, true⟩

/-- A served payload that is itself a small signature-prefixed text. -/
def c7Body : List Nat :=
  strBytes "version https://git-lfs.github.com/spec/v1"

/-- The network serving that payload for every URL. -/
def c7Net : Network := fun _ => .response 200 c7Body

/-- `c7File` after the download replaced it with the served payload. -/
def c7File1 : LfsFile := ⟨["m.bin"], c7Body, true, true⟩

/-- C7 counterexample: when the fixed network serves a payload that is
itself a small text beginning with the LFS signature, the pointer file
is successfully replaced in the first run (the success line is
printed) yet it still matches the signature check, so the second run
downloads it again instead of skipping it — the downloading and
success lines are printed again.  The filesystem is nevertheless
identical after the second run, so only the skip clause of the claim
is false. -/
theorem c7_counterexample :
    process_directory c7Net "/r" "https://x/y" [c7File] =
      .ok ([c7File1],
        ["Downloading /r/m.bin from https://x/y/m.bin...",
         "Successfully downloaded /r/m.bin"]) ∧
    process_directory c7Net "/r" "https://x/y" [c7File1] =
      .ok ([c7File1],
        ["Downloading /r/m.bin from https://x/y/m.bin...",
         "Successfully downloaded /r/m.bin"]) :=
  ⟨rfl, rfl⟩

/-- C7 amended: running the processing twice against the same root and
the same fixed network leaves the filesystem after the second run
identical to after the first — the second run reproduces the first
files of the first run exactly — and a file the first run replaced (or skipped)
is skipped silently in the second run provided its resulting content
no longer passes the pointer check (as is the case whenever the
payload is not itself a small signature-prefixed decodable text). -/
theorem c7_amended (net : Network) (root base : String) :
    (∀ (files files1 : List LfsFile) (msgs : List String),
      process_directory net root base files = .ok (files1, msgs) →
      ∃ msgs1, process_directory net root base files1 = .ok (files1, msgs1)) ∧
    (∀ (f f1 : LfsFile) (out : List String),
      processFile net root base f = .ok (f1, out) →
      detectPointer f1 = false →
      processFile net root base f1 = .ok (f1, [])) := by
  constructor
  · exact process_directory_idem net root base
  · intro f f1 out h hdet
    exact processFile_skip net root base f1
      (processFile_ok_statable net root base f f1 out h) hdet

/-- The pointer stub used to witness the amended C7. -/
def c7WFile : LfsFile :=
  ⟨["w.bin"], strBytes "version https://git-lfs.github.com/spec/v1\nsize 1\n", true, true⟩

/-- Network serving one non-UTF8 byte: the replaced file no longer
passes the pointer check. -/
def c7WNet : Network := fun _ => .response 200 [255]

/-- `c7WFile` after replacement by the single byte `0xFF`. -/
def c7WFile1 : LfsFile := ⟨["w.bin"], [255], true, true⟩

theorem c7_witness :
    process_directory c7WNet "/r" "https://x/y" [c7WFile] =
      .ok ([c7WFile1],
        ["Downloading /r/w.bin from https://x/y/w.bin...",
         "Successfully downloaded /r/w.bin"]) ∧
    (∃ msgs1, process_directory c7WNet "/r" "https://x/y" [c7WFile1] =
      .ok ([c7WFile1], msgs1)) ∧
    processFile c7WNet "/r" "https://x/y" c7WFile =
      .ok (c7WFile1,
        ["Downloading /r/w.bin from https://x/y/w.bin...",
         "Successfully downloaded /r/w.bin"]) ∧
    detectPointer c7WFile1 = false ∧
    processFile c7WNet "/r" "https://x/y" c7WFile1 = .ok (c7WFile1, []) :=
  ⟨rfl,
    (c7_amended c7WNet "/r" "https://x/y").1 [c7WFile] [c7WFile1]
      ["Downloading /r/w.bin from https://x/y/w.bin...",
       "Successfully downloaded /r/w.bin"] rfl,
    rfl, by decide,
    (c7_amended c7WNet "/r" "https://x/y").2 c7WFile c7WFile1
      ["Downloading /r/w.bin from https://x/y/w.bin...",
       "Successfully downloaded /r/w.bin"] rfl (by decide)⟩

end DownloadLfs
